import Mathlib

/-!
Verification of the spicetify-cli theme-configuration and watch subsystem.

The Go source (package `cmd`: `config.go`-like file and `watch.go`) is embedded
shallowly.  The global mutable variables touched by `InitSetting`
(`replaceColors`, `injectCSS`, `overwriteAssets`, `themeFolder`, `colorCfg`,
`colorSection`) become an explicit `SettingState` threaded through the function.
The filesystem is an abstract map: a set of paths on which `os.Stat` succeeds,
plus a partial map from paths to parsed INI files (the go-ini library is an
external dependency, modelled at its interface: `Sections()` is the section
list in order, `GetSection` under `InsensitiveLoad` matches names
case-insensitively).  `os.Exit` becomes an explicit `exit` result.
-/

/-- One INI section: a name and its key/value pairs. -/
structure IniSection where
  name : String
  keys : List (String × String)
deriving DecidableEq, Repr

/-- A parsed INI file, as the list returned by go-ini `File.Sections()`,
in file order. -/
abbrev IniFile := List IniSection

/-- Abstract filesystem state: `existing` is the set of paths at which
`os.Stat` succeeds; `iniFiles` maps a path to the parse result of
`ini.InsensitiveLoad` at that path (absent entry = load error). -/
structure FS where
  existing : List String
  iniFiles : List (String × IniFile)
deriving DecidableEq, Repr

/-- `os.Stat(p)` succeeding, i.e. `err == nil`. -/
def statOk (fs : FS) (p : String) : Bool :=
  fs.existing.contains p

/-- `ini.InsensitiveLoad(p)`: `none` models a load error. -/
def insensitiveLoad (fs : FS) (p : String) : Option IniFile :=
  (fs.iniFiles.find? (fun q => q.1 == p)).map (fun q => q.2)

/-- ASCII-wise lowercasing (`strings.ToLower` at the level the claims use),
written over the character list so that it evaluates by kernel reduction. -/
def lowerStr (s : String) : String := String.mk (s.data.map Char.toLower)

/-- go-ini `File.GetSection(name)` after `InsensitiveLoad`: section names are
matched case-insensitively; `none` models the `err != nil` case. -/
def getSectionInsensitive (file : IniFile) (name : String) : Option IniSection :=
  file.find? (fun s => lowerStr s.name == lowerStr name)

/-- `filepath.Join` restricted to the separator behaviour the claims need. -/
def joinPath (a b : String) : String := a ++ "/" ++ b

/-- A config-store section (e.g. `settingSection`): key/value pairs.
Per the Config Store contract, key lookup is case-insensitive and a missing
key reads as the empty string (go-ini `Key(k).String()`). -/
def keyString (sec : List (String × String)) (k : String) : String :=
  (((sec.find? (fun p => lowerStr p.1 == lowerStr k))).map (fun p => p.2)).getD ""

/-- go-ini boolean parsing (`parseBool`): the accepted literal sets. -/
def parseBoolStr (s : String) : Option Bool :=
  if ["1", "t", "T", "true", "TRUE", "True", "YES", "yes", "Yes", "y", "ON", "on", "On"].contains s then
    some true
  else if ["0", "f", "F", "false", "FALSE", "False", "NO", "no", "No", "n", "OFF", "off", "Off"].contains s then
    some false
  else
    none

/-- go-ini `Key(k).MustBool(default)`: the default on absence or parse failure. -/
def mustBool (s : String) (d : Bool) : Bool :=
  (parseBoolStr s).getD d

/-- go-ini `Key(k).Strings(delim)`: empty value gives the empty list, otherwise
split on the delimiter and trim each item. -/
def keyStrings (sec : List (String × String)) (k delim : String) : List String :=
  let s := keyString sec k
  if s.length = 0 then [] else (s.splitOn delim).map (fun v => v.trim)

/-- The ambient inputs of the `cmd` package: the two config sections the
claims read, the filesystem, the two theme search roots, the extension
resolution map (for `getExtensionPath`, whose body lives outside the provided
sources), and the `isValidForWatching` verdict. -/
structure Env where
  settingSection : List (String × String)
  featureSection : List (String × String)
  fs : FS
  userThemesFolder : String
  execDir : String
  extPaths : List (String × String)
  moddable : Bool
deriving DecidableEq, Repr

/-- The package-level mutable variables written by `InitSetting`. -/
structure SettingState where
  replaceColors : Bool
  injectCSS : Bool
  overwriteAssets : Bool
  themeFolder : String
  colorCfg : Option IniFile
  colorSection : Option IniSection
deriving DecidableEq, Repr

/-- Zero values of the globals at process start. -/
def initialState : SettingState :=
  { replaceColors := false, injectCSS := false, overwriteAssets := false,
    themeFolder := "", colorCfg := none, colorSection := none }

/-- Result of a call that may terminate the process: `exit` models
`os.Exit(1)`; `ok` carries the new global state and the error messages
printed by `utils.PrintError` during the call. -/
inductive InitResult where
  | exit : InitResult
  | ok : SettingState → List String → InitResult
deriving DecidableEq, Repr

/-- `getThemeFolder(themeName)`: user themes folder first, then the folder
next to the executable; `none` models `PrintError` + `os.Exit(1)`. -/
def getThemeFolder (env : Env) (themeName : String) : Option String :=
  let folder := joinPath env.userThemesFolder themeName
  if statOk env.fs folder then some folder
  else
    let folder := joinPath (joinPath env.execDir "Themes") themeName
    if statOk env.fs folder then some folder
    else none

/-- `InitSetting()` from the `cmd` package, with the touched globals made
explicit: reads the raw flags, blanks them and returns if no theme is
configured, resolves the theme folder (fatal if not found), gates each flag
on the existence of its resource, and — when colors are still to be
replaced — loads the color file and selects the color section. -/
def InitSetting (env : Env) (prev : SettingState) : InitResult :=
  let replaceColors := mustBool (keyString env.settingSection "replace_colors") false
  let injectCSS := mustBool (keyString env.settingSection "inject_css") false
  let overwriteAssets := mustBool (keyString env.settingSection "overwrite_assets") false
  let themeName := keyString env.settingSection "current_theme"
  if themeName.length = 0 then
    .ok { prev with injectCSS := false, replaceColors := false, overwriteAssets := false } []
  else
    match getThemeFolder env themeName with
    | none => .exit
    | some themeFolder =>
      let colorPath := joinPath themeFolder "color.ini"
      let cssPath := joinPath themeFolder "user.css"
      let assetsPath := joinPath themeFolder "assets"
      let replaceColors := replaceColors && statOk env.fs colorPath
      let injectCSS := injectCSS && statOk env.fs cssPath
      let overwriteAssets := overwriteAssets && statOk env.fs assetsPath
      let st := { prev with
        replaceColors := replaceColors
        injectCSS := injectCSS
        overwriteAssets := overwriteAssets
        themeFolder := themeFolder }
      if !replaceColors then .ok st []
      else
        match insensitiveLoad env.fs colorPath with
        | none =>
          .ok { st with colorCfg := none, replaceColors := false }
            ["Cannot open file " ++ colorPath]
        | some colorCfg =>
          let st := { st with colorCfg := some colorCfg }
          let sections := colorCfg
          if hlen : sections.length < 2 then
            .ok { st with replaceColors := false } ["No section found in " ++ colorPath]
          else
            let schemeName := keyString env.settingSection "color_scheme"
            if schemeName.length = 0 then
              .ok { st with colorSection := some (sections.get ⟨1, by omega⟩) } []
            else
              match getSectionInsensitive colorCfg schemeName with
              | none => .ok { st with colorSection := some (sections.get ⟨1, by omega⟩) } []
              | some schemeSection => .ok { st with colorSection := some schemeSection } []

/-- Outcome of the `Watch` entry point up to entering the blocking watch
call: the three `os.Exit(1)` sites, or watching with the resolved state and
the flat file list handed to `utils.Watch`. -/
inductive WatchOutcome where
  | exitNotApplied : WatchOutcome
  | exitThemeNotFound : WatchOutcome
  | exitBlankTheme : WatchOutcome
  | watching : SettingState → List String → WatchOutcome
deriving DecidableEq, Repr

/-- `Watch` from `watch.go` (the startup path, before the blocking
`utils.Watch` call): validity check, `InitSetting` from the process-start
zero state, the blank-theme abort, then assembly of the watched file list. -/
def Watch (env : Env) : WatchOutcome :=
  if !env.moddable then .exitNotApplied
  else
    match InitSetting env initialState with
    | .exit => .exitThemeNotFound
    | .ok st _msgs =>
      if st.themeFolder.length = 0 then .exitBlankTheme
      else
        let colorPath := joinPath st.themeFolder "color.ini"
        let cssPath := joinPath st.themeFolder "user.css"
        let fileList : List String := []
        let fileList := if st.replaceColors then fileList ++ [colorPath] else fileList
        let fileList := if st.injectCSS then fileList ++ [cssPath] else fileList
        .watching st fileList

/-- Modelled from the spec: `resolveExtensionPath(name) -> path | NotFound`
(§4.3) searches configured extension locations by name.  The body of
`getExtensionPath` is outside the provided sources, so the search is an
abstract name-to-path map carried in `Env`. -/
def getExtensionPath (env : Env) (name : String) : Option String :=
  (env.extPaths.find? (fun q => q.1 == name)).map (fun q => q.2)

/-- Outcome of `WatchExtensions` up to entering the blocking watch call:
the validity abort, the fatal no-extension exit, or watching the resolved
path list; `watching` also records the per-item not-found warnings. -/
inductive ExtWatchOutcome where
  | exitNotApplied : ExtWatchOutcome
  | exitNoExtension : ExtWatchOutcome
  | watching : List String → List String → ExtWatchOutcome
deriving DecidableEq, Repr

/-- `WatchExtensions` from `watch.go` (startup path): read the pipe-delimited
extension list, resolve each name, warn and continue on a miss, exit fatally
when nothing resolved. -/
def WatchExtensions (env : Env) : ExtWatchOutcome :=
  if !env.moddable then .exitNotApplied
  else
    let extNameList := keyStrings env.featureSection "extensions" "|"
    let step := fun (acc : List String × List String) (v : String) =>
      match getExtensionPath env v with
      | none => (acc.1, acc.2 ++ ["Extension \"" ++ v ++ "\" not found."])
      | some extPath => (acc.1 ++ [extPath], acc.2)
    let r := extNameList.foldl step ([], [])
    if r.1.length = 0 then .exitNoExtension
    else .watching r.1 r.2

/-- Environment variables and platform of the process, for
`getSpicetifyFolder`. -/
structure OSEnv where
  vars : List (String × String)
  goos : String
deriving DecidableEq, Repr

/-- `os.LookupEnv`. -/
def lookupEnv (env : OSEnv) (k : String) : Option String :=
  (env.vars.find? (fun q => q.1 == k)).map (fun q => q.2)

/-- `os.Getenv`: empty string when unset. -/
def getenv (env : OSEnv) (k : String) : String :=
  (lookupEnv env k).getD ""

/-- Modelled from the spec: `utils.CheckExistAndCreate(path)` is an
idempotent directory ensure (§6); its body is outside the provided sources.
Returns the filesystem with `path` existing. -/
def checkExistAndCreate (fs : FS) (p : String) : FS :=
  if statOk fs p then fs else { fs with existing := p :: fs.existing }

/-- `getSpicetifyFolder()`: the `SPICETIFY_CONFIG` override when set and
non-empty, otherwise the per-platform default; the deferred
`CheckExistAndCreate` runs on the returned value.  Result is the returned
path together with the filesystem after the deferred create. -/
def getSpicetifyFolder (env : OSEnv) (fs : FS) : String × FS :=
  let looked := lookupEnv env "SPICETIFY_CONFIG"
  let result :=
    if looked.isSome && (looked.getD "").length > 0 then looked.getD ""
    else if env.goos == "windows" then
      joinPath (getenv env "USERPROFILE") ".spicetify"
    else if env.goos == "linux" || env.goos == "darwin" then
      let parent :=
        match lookupEnv env "XDG_CONFIG_HOME" with
        | some p => if p.length = 0 then joinPath (getenv env "HOME") ".config" else p
        | none => joinPath (getenv env "HOME") ".config"
      joinPath parent "spicetify"
    else looked.getD ""
  (result, checkExistAndCreate fs result)

/-- The reload callback installed by `startDebugger` (`watch.go`): given the
outcome of `utils.SendReload`, the messages it prints; it never exits. -/
def autoReloadFunc (reloadOk : Bool) : List String :=
  if reloadOk then ["Spotify reloaded"]
  else
    ["Could not Reload Spotify",
     "Close Spotify and run \"spicetify watch -e -l\" again."]

/-- One filesystem change event as delivered by the watch dispatcher:
whether the event carries an error, and whether the reload attempt that the
reaction triggers would succeed. -/
structure ChangeEvent where
  hasError : Bool
  reloadOk : Bool
deriving DecidableEq, Repr

/-- Modelled from the spec: the watch dispatcher loop (§4.4) — on each
change event invoke the reaction; a non-nil event error terminates the
process; on success invoke the bound reload callback and keep watching.
The body of `utils.Watch` is outside the provided sources.  Result: the
printed log and whether the loop terminated the process. -/
def runWatchLoop : List ChangeEvent → List String × Bool
  | [] => ([], false)
  | e :: rest =>
    if e.hasError then (["watch error: fatal"], true)
    else
      let msgs := autoReloadFunc e.reloadOk
      let r := runWatchLoop rest
      (msgs ++ r.1, r.2)

/-- C2: when `current_theme` is empty, resolving theme settings from the
process-start state yields all three effective flags false regardless of the
raw `replace_colors` / `inject_css` / `overwrite_assets` values, and the
`Watch` entry point terminates the process with an error. -/
theorem initSetting_blank_theme_flags_false_and_watch_exits
    (env : Env)
    (hname : keyString env.settingSection "current_theme" = "")
    (hmod : env.moddable = true) :
    InitSetting env initialState = .ok initialState [] ∧
      initialState.replaceColors = false ∧ initialState.injectCSS = false ∧
      initialState.overwriteAssets = false ∧
      Watch env = .exitBlankTheme := by
  have h1 : InitSetting env initialState = .ok initialState [] := by
    simp [InitSetting, hname, initialState]
  refine ⟨h1, rfl, rfl, rfl, ?_⟩
  unfold Watch
  rw [hmod, h1]
  simp [initialState]

/-- C2 witness. -/
theorem initSetting_blank_theme_flags_false_and_watch_exits_witness :
    InitSetting
        { settingSection := [("current_theme", ""), ("replace_colors", "1"),
            ("inject_css", "1"), ("overwrite_assets", "1")],
          featureSection := [], fs := ⟨[], []⟩, userThemesFolder := "T",
          execDir := "E", extPaths := [], moddable := true }
        initialState = .ok initialState [] ∧
      initialState.replaceColors = false ∧ initialState.injectCSS = false ∧
      initialState.overwriteAssets = false ∧
      Watch
        { settingSection := [("current_theme", ""), ("replace_colors", "1"),
            ("inject_css", "1"), ("overwrite_assets", "1")],
          featureSection := [], fs := ⟨[], []⟩, userThemesFolder := "T",
          execDir := "E", extPaths := [], moddable := true } = .exitBlankTheme :=
  initSetting_blank_theme_flags_false_and_watch_exits _ (by decide) (by decide)

/-- C10: when `current_theme` is empty, `InitSetting` modifies only the three
effective boolean flags (all set false) and prints nothing: the theme folder,
parsed color file and selected color section keep their prior values; on a
first resolution the theme folder is therefore still empty, which is the
condition `Watch` checks to abort. -/
theorem initSetting_blank_theme_frame
    (env : Env) (st st1 : SettingState) (errs : List String)
    (hname : keyString env.settingSection "current_theme" = "")
    (h : InitSetting env st = .ok st1 errs) :
    st1.replaceColors = false ∧ st1.injectCSS = false ∧
      st1.overwriteAssets = false ∧
      st1.themeFolder = st.themeFolder ∧ st1.colorCfg = st.colorCfg ∧
      st1.colorSection = st.colorSection ∧ errs = [] ∧
      (env.moddable = true → Watch env = .exitBlankTheme) := by
  have hbody : InitSetting env st =
      .ok { st with injectCSS := false, replaceColors := false, overwriteAssets := false } [] := by
    simp [InitSetting, hname]
  rw [hbody] at h
  cases h
  refine ⟨rfl, rfl, rfl, rfl, rfl, rfl, rfl, fun hmod => ?_⟩
  have h0 : InitSetting env initialState = .ok initialState [] := by
    simp [InitSetting, hname, initialState]
  unfold Watch
  rw [hmod, h0]
  simp [initialState]

/-- Helper: on any non-exiting resolution with a configured theme name, the
theme folder and the three effective flags of the result are functions of
the environment alone. -/
theorem initSetting_ok_flags
    (env : Env) (st st1 : SettingState) (errs : List String)
    (hname : (keyString env.settingSection "current_theme").length ≠ 0)
    (h : InitSetting env st = .ok st1 errs) :
    ∃ tf, getThemeFolder env (keyString env.settingSection "current_theme") = some tf ∧
      st1.themeFolder = tf ∧
      st1.replaceColors =
        ((mustBool (keyString env.settingSection "replace_colors") false &&
            statOk env.fs (joinPath tf "color.ini")) &&
          match insensitiveLoad env.fs (joinPath tf "color.ini") with
          | none => false
          | some secs => decide (2 ≤ secs.length)) ∧
      st1.injectCSS =
        (mustBool (keyString env.settingSection "inject_css") false &&
          statOk env.fs (joinPath tf "user.css")) ∧
      st1.overwriteAssets =
        (mustBool (keyString env.settingSection "overwrite_assets") false &&
          statOk env.fs (joinPath tf "assets")) := by
  simp only [InitSetting, if_neg hname] at h
  split at h
  next => cases h
  next tf htf =>
    refine ⟨tf, htf, ?_⟩
    split at h
    next hrc =>
      simp only [Bool.not_eq_true'] at hrc
      cases h
      refine ⟨rfl, ?_, rfl, rfl⟩
      simp [hrc]
    next hrc =>
      simp only [Bool.not_eq_true, Bool.not_eq_false'] at hrc
      split at h
      next hload =>
        cases h
        refine ⟨rfl, ?_, rfl, rfl⟩
        simp [hload]
      next cfg hload =>
        split at h
        next hlen =>
          cases h
          refine ⟨rfl, ?_, rfl, rfl⟩
          have hn2 : ¬ (2 ≤ cfg.length) := by omega
          simp [hload, hn2]
        next hlen =>
          have h2 : (2 ≤ cfg.length) := by omega
          split at h
          next hs =>
            cases h
            refine ⟨rfl, ?_, rfl, rfl⟩
            simp [hload, h2]
          next hs =>
            split at h
            next hfind =>
              cases h
              refine ⟨rfl, ?_, rfl, rfl⟩
              simp [hload, h2]
            next s hfind =>
              cases h
              refine ⟨rfl, ?_, rfl, rfl⟩
              simp [hload, h2]

/-- C3: after resolution with a non-empty theme name, each effective flag is
true only if its raw preference parses true and its resource exists under
the resolved theme folder; in particular a missing `assets` directory forces
`overwriteAssets` to false. -/
theorem initSetting_flags_require_resource
    (env : Env) (st st1 : SettingState) (errs : List String)
    (hname : (keyString env.settingSection "current_theme").length ≠ 0)
    (h : InitSetting env st = .ok st1 errs) :
    (st1.replaceColors = true →
        mustBool (keyString env.settingSection "replace_colors") false = true ∧
        statOk env.fs (joinPath st1.themeFolder "color.ini") = true) ∧
      (st1.injectCSS = true →
        mustBool (keyString env.settingSection "inject_css") false = true ∧
        statOk env.fs (joinPath st1.themeFolder "user.css") = true) ∧
      (st1.overwriteAssets = true →
        mustBool (keyString env.settingSection "overwrite_assets") false = true ∧
        statOk env.fs (joinPath st1.themeFolder "assets") = true) ∧
      (statOk env.fs (joinPath st1.themeFolder "assets") = false →
        st1.overwriteAssets = false) := by
  obtain ⟨tf, htf, hfolder, hrc, hic, hoa⟩ := initSetting_ok_flags env st st1 errs hname h
  subst hfolder
  refine ⟨fun hx => ?_, fun hx => ?_, fun hx => ?_, fun hx => ?_⟩
  · rw [hrc] at hx
    simp only [Bool.and_eq_true] at hx
    exact ⟨hx.1.1, hx.1.2⟩
  · rw [hic] at hx
    simpa using hx
  · rw [hoa] at hx
    simpa using hx
  · rw [hoa, hx]
    simp

/-- C3 witness: raw `overwrite_assets = 1` but no `assets` directory, so the
effective flag is false. -/
theorem initSetting_flags_require_resource_witness :
    ((SettingState.mk false false false "T/Foo" none none).replaceColors = true →
        mustBool (keyString [("current_theme", "Foo"), ("overwrite_assets", "1")] "replace_colors") false = true ∧
        statOk (FS.mk ["T/Foo"] []) (joinPath (SettingState.mk false false false "T/Foo" none none).themeFolder "color.ini") = true) ∧
      ((SettingState.mk false false false "T/Foo" none none).injectCSS = true →
        mustBool (keyString [("current_theme", "Foo"), ("overwrite_assets", "1")] "inject_css") false = true ∧
        statOk (FS.mk ["T/Foo"] []) (joinPath (SettingState.mk false false false "T/Foo" none none).themeFolder "user.css") = true) ∧
      ((SettingState.mk false false false "T/Foo" none none).overwriteAssets = true →
        mustBool (keyString [("current_theme", "Foo"), ("overwrite_assets", "1")] "overwrite_assets") false = true ∧
        statOk (FS.mk ["T/Foo"] []) (joinPath (SettingState.mk false false false "T/Foo" none none).themeFolder "assets") = true) ∧
      (statOk (FS.mk ["T/Foo"] []) (joinPath (SettingState.mk false false false "T/Foo" none none).themeFolder "assets") = false →
        (SettingState.mk false false false "T/Foo" none none).overwriteAssets = false) :=
  initSetting_flags_require_resource
    (Env.mk [("current_theme", "Foo"), ("overwrite_assets", "1")] [] (FS.mk ["T/Foo"] []) "T" "E" [] true)
    initialState (SettingState.mk false false false "T/Foo" none none) []
    (by decide) (by decide)

/-- C4: when the color file fails to parse or parses to fewer than two
sections, resolution returns normally (no exit) with `replaceColors` set to
false and an error reported, while `injectCSS` and `overwriteAssets` keep
their independently gated values. -/
theorem initSetting_color_file_error_nonfatal
    (env : Env) (st : SettingState) (tf : String)
    (hname : (keyString env.settingSection "current_theme").length ≠ 0)
    (htf : getThemeFolder env (keyString env.settingSection "current_theme") = some tf)
    (hrc : (mustBool (keyString env.settingSection "replace_colors") false &&
        statOk env.fs (joinPath tf "color.ini")) = true)
    (hbad : insensitiveLoad env.fs (joinPath tf "color.ini") = none ∨
      ∃ secs, insensitiveLoad env.fs (joinPath tf "color.ini") = some secs ∧
        secs.length < 2) :
    ∃ st1 errs, InitSetting env st = .ok st1 errs ∧
      st1.replaceColors = false ∧ errs ≠ [] ∧
      st1.injectCSS =
        (mustBool (keyString env.settingSection "inject_css") false &&
          statOk env.fs (joinPath tf "user.css")) ∧
      st1.overwriteAssets =
        (mustBool (keyString env.settingSection "overwrite_assets") false &&
          statOk env.fs (joinPath tf "assets")) := by
  simp only [InitSetting, if_neg hname, htf, hrc, Bool.not_true,
    Bool.false_eq_true, if_false]
  rcases hbad with hload | ⟨secs, hload, hlen⟩
  · rw [hload]
    exact ⟨_, _, rfl, rfl, by simp, rfl, rfl⟩
  · simp only [hload, dif_pos hlen]
    exact ⟨_, _, rfl, rfl, by simp, rfl, rfl⟩

/-- C4 witness: a color file with exactly one section; `injectCSS` stays
true. -/
theorem initSetting_color_file_error_nonfatal_witness :
    ∃ st1 errs,
      InitSetting
          (Env.mk [("current_theme", "Foo"), ("replace_colors", "1"), ("inject_css", "1")] []
            (FS.mk ["T/Foo", "T/Foo/color.ini", "T/Foo/user.css"]
              [("T/Foo/color.ini", [IniSection.mk "Main" []])])
            "T" "E" [] true)
          initialState = .ok st1 errs ∧
      st1.replaceColors = false ∧ errs ≠ [] ∧
      st1.injectCSS =
        (mustBool (keyString
            [("current_theme", "Foo"), ("replace_colors", "1"), ("inject_css", "1")]
            "inject_css") false &&
          statOk (FS.mk ["T/Foo", "T/Foo/color.ini", "T/Foo/user.css"]
              [("T/Foo/color.ini", [IniSection.mk "Main" []])])
            (joinPath "T/Foo" "user.css")) ∧
      st1.overwriteAssets =
        (mustBool (keyString
            [("current_theme", "Foo"), ("replace_colors", "1"), ("inject_css", "1")]
            "overwrite_assets") false &&
          statOk (FS.mk ["T/Foo", "T/Foo/color.ini", "T/Foo/user.css"]
              [("T/Foo/color.ini", [IniSection.mk "Main" []])])
            (joinPath "T/Foo" "assets")) :=
  initSetting_color_file_error_nonfatal
    (Env.mk [("current_theme", "Foo"), ("replace_colors", "1"), ("inject_css", "1")] []
      (FS.mk ["T/Foo", "T/Foo/color.ini", "T/Foo/user.css"]
        [("T/Foo/color.ini", [IniSection.mk "Main" []])])
      "T" "E" [] true)
    initialState "T/Foo"
    (by decide) (by decide) (by decide)
    (Or.inr ⟨[IniSection.mk "Main" []], by decide, by decide⟩)

/-- C1: with a resolvable theme, color replacement active, and a color file
of at least two sections, the selected color section is the index-1 section
when no `color_scheme` is configured or the configured name matches no
section, and the matching section otherwise. -/
theorem initSetting_color_scheme_selection
    (env : Env) (st : SettingState) (tf : String) (secs : IniFile)
    (hname : (keyString env.settingSection "current_theme").length ≠ 0)
    (htf : getThemeFolder env (keyString env.settingSection "current_theme") = some tf)
    (hraw : mustBool (keyString env.settingSection "replace_colors") false = true)
    (hstat : statOk env.fs (joinPath tf "color.ini") = true)
    (hload : insensitiveLoad env.fs (joinPath tf "color.ini") = some secs)
    (hlen : 2 ≤ secs.length) :
    ∃ st1, InitSetting env st = .ok st1 [] ∧
      st1.colorSection = some (
        if (keyString env.settingSection "color_scheme").length = 0 then
          secs.get ⟨1, by omega⟩
        else
          match getSectionInsensitive secs (keyString env.settingSection "color_scheme") with
          | none => secs.get ⟨1, by omega⟩
          | some s => s) := by
  simp only [InitSetting, htf, hload, hraw, hstat, if_neg hname,
    dif_neg (Nat.not_lt.mpr hlen)]
  simp only [Bool.and_self, Bool.not_true]
  by_cases hs : (keyString env.settingSection "color_scheme").length = 0
  · simp only [if_pos hs, Bool.false_eq_true, if_false]
    exact ⟨_, rfl, rfl⟩
  · simp only [if_neg hs, Bool.false_eq_true, if_false]
    cases hfind : getSectionInsensitive secs (keyString env.settingSection "color_scheme") with
    | none => exact ⟨_, rfl, rfl⟩
    | some s => exact ⟨_, rfl, rfl⟩

/-- C1 witness: sections `Main`, `SchemeA`, `SchemeB`; no scheme configured
selects `SchemeA`. -/
theorem initSetting_color_scheme_selection_witness :
    ∃ st1,
      InitSetting
          (Env.mk [("current_theme", "Foo"), ("replace_colors", "1")] []
            ⟨["T/Foo", "T/Foo/color.ini"],
             [("T/Foo/color.ini",
               [IniSection.mk "Main" [], IniSection.mk "SchemeA" [], IniSection.mk "SchemeB" []])]⟩
            "T" "E" [] true)
          initialState = .ok st1 [] ∧
      st1.colorSection = some (
        if (keyString [("current_theme", "Foo"), ("replace_colors", "1")] "color_scheme").length = 0 then
          ([IniSection.mk "Main" [], IniSection.mk "SchemeA" [], IniSection.mk "SchemeB" []] : IniFile).get
            ⟨1, by decide⟩
        else
          match getSectionInsensitive
              [IniSection.mk "Main" [], IniSection.mk "SchemeA" [], IniSection.mk "SchemeB" []]
              (keyString [("current_theme", "Foo"), ("replace_colors", "1")] "color_scheme") with
          | none =>
            ([IniSection.mk "Main" [], IniSection.mk "SchemeA" [], IniSection.mk "SchemeB" []] : IniFile).get
              ⟨1, by decide⟩
          | some s => s) :=
  initSetting_color_scheme_selection _ initialState "T/Foo"
    [IniSection.mk "Main" [], IniSection.mk "SchemeA" [], IniSection.mk "SchemeB" []]
    (by decide) (by decide) (by decide) (by decide) (by decide) (by decide)

/-- C9: the configured `color_scheme` name is matched against the color
file's sections case-insensitively: when some section's lowercased name
equals the lowercased configured name, resolution selects that (first such)
section rather than falling back to the index-1 section. -/
theorem initSetting_scheme_match_case_insensitive
    (env : Env) (st : SettingState) (tf : String) (secs : IniFile) (s : IniSection)
    (hname : (keyString env.settingSection "current_theme").length ≠ 0)
    (htf : getThemeFolder env (keyString env.settingSection "current_theme") = some tf)
    (hraw : mustBool (keyString env.settingSection "replace_colors") false = true)
    (hstat : statOk env.fs (joinPath tf "color.ini") = true)
    (hload : insensitiveLoad env.fs (joinPath tf "color.ini") = some secs)
    (hlen : 2 ≤ secs.length)
    (hscheme : (keyString env.settingSection "color_scheme").length ≠ 0)
    (hfind : secs.find?
        (fun t => lowerStr t.name == lowerStr (keyString env.settingSection "color_scheme"))
        = some s) :
    lowerStr s.name = lowerStr (keyString env.settingSection "color_scheme") ∧
      ∃ st1, InitSetting env st = .ok st1 [] ∧ st1.colorSection = some s := by
  have hbeq := List.find?_some hfind
  refine ⟨by simpa using hbeq, ?_⟩
  simp only [InitSetting, htf, hload, hraw, hstat, if_neg hname,
    dif_neg (Nat.not_lt.mpr hlen)]
  simp only [Bool.and_self, Bool.not_true, Bool.false_eq_true, if_false,
    if_neg hscheme]
  have hgs : getSectionInsensitive secs (keyString env.settingSection "color_scheme") = some s := hfind
  rw [hgs]
  exact ⟨_, rfl, rfl⟩

/-- C9 witness: configured scheme `DARK` selects the section named `Dark`. -/
theorem initSetting_scheme_match_case_insensitive_witness :
    lowerStr (IniSection.mk "Dark" []).name =
        lowerStr (keyString
          [("current_theme", "Foo"), ("replace_colors", "1"), ("color_scheme", "DARK")]
          "color_scheme") ∧
      ∃ st1,
        InitSetting
            (Env.mk
              [("current_theme", "Foo"), ("replace_colors", "1"), ("color_scheme", "DARK")] []
              ⟨["T/Foo", "T/Foo/color.ini"],
               [("T/Foo/color.ini", [IniSection.mk "Main" [], IniSection.mk "Dark" []])]⟩
              "T" "E" [] true)
            initialState = .ok st1 [] ∧
        st1.colorSection = some (IniSection.mk "Dark" []) :=
  initSetting_scheme_match_case_insensitive
    (Env.mk
      [("current_theme", "Foo"), ("replace_colors", "1"), ("color_scheme", "DARK")] []
      ⟨["T/Foo", "T/Foo/color.ini"],
       [("T/Foo/color.ini", [IniSection.mk "Main" [], IniSection.mk "Dark" []])]⟩
      "T" "E" [] true)
    initialState "T/Foo"
    [IniSection.mk "Main" [], IniSection.mk "Dark" []] (IniSection.mk "Dark" [])
    (by decide) (by decide) (by decide) (by decide) (by decide) (by decide)
    (by decide) (by decide)

/-- C8 counterexample: with the same store and filesystem (`current_theme`
empty), resolving from two different previously resolved states yields
different effective settings: the result's theme folder (and color section)
retain their previous values, so the resolution does not depend only on the
then-current store and filesystem state. -/
theorem initSetting_prev_state_dependence_cex :
    InitSetting (Env.mk [("current_theme", "")] [] (FS.mk [] []) "T" "E" [] true)
        (SettingState.mk true true true "Stale" none (some (IniSection.mk "S" []))) =
      .ok (SettingState.mk false false false "Stale" none (some (IniSection.mk "S" []))) [] ∧
    InitSetting (Env.mk [("current_theme", "")] [] (FS.mk [] []) "T" "E" [] true)
        initialState = .ok initialState [] ∧
    (SettingState.mk false false false "Stale" none
        (some (IniSection.mk "S" []))).themeFolder ≠ initialState.themeFolder ∧
    (SettingState.mk false false false "Stale" none
        (some (IniSection.mk "S" []))).colorSection ≠ initialState.colorSection := by
  decide

/-- C8 (amended): theme-settings resolution is deterministic and idempotent
— a second consecutive invocation reproduces exactly the same state and
messages — and the three effective boolean flags of any non-exiting
resolution depend only on the store and filesystem, not on the previous
state; the theme folder and color section, however, may retain previously
resolved values on early-return paths. -/
theorem initSetting_idempotent_and_flags_memoryless :
    (∀ env st st1 errs, InitSetting env st = .ok st1 errs →
      InitSetting env st1 = .ok st1 errs) ∧
    (∀ env sa sb sta stb ea eb, InitSetting env sa = .ok sta ea →
      InitSetting env sb = .ok stb eb →
      sta.replaceColors = stb.replaceColors ∧ sta.injectCSS = stb.injectCSS ∧
        sta.overwriteAssets = stb.overwriteAssets) := by
  constructor
  · intro env st st1 errs h
    by_cases hname : (keyString env.settingSection "current_theme").length = 0
    · have hth : InitSetting env st =
          .ok { st with injectCSS := false, replaceColors := false, overwriteAssets := false } [] := by
        simp [InitSetting, hname]
      rw [hth] at h
      cases h
      have h2 : InitSetting env
          { st with injectCSS := false, replaceColors := false, overwriteAssets := false } =
          .ok { st with injectCSS := false, replaceColors := false, overwriteAssets := false } [] := by
        simp [InitSetting, hname]
      exact h2
    · simp only [InitSetting, if_neg hname] at h ⊢
      split at h
      next => cases h
      next tf htf =>
        split at h
        next hrc =>
          cases h
          rw [if_pos hrc]
        next hrc =>
          rw [if_neg hrc]
          split at h
          next hload =>
            cases h
            rfl
          next cfg hload =>
            split at h
            next hlen =>
              cases h
              rw [dif_pos hlen]
            next hlen =>
              rw [dif_neg hlen]
              split at h
              next hs =>
                cases h
                rw [if_pos hs]
              next hs =>
                rw [if_neg hs]
                split at h
                next hfind =>
                  cases h
                  rfl
                next s hfind =>
                  cases h
                  rfl
  · intro env sa sb sta stb ea eb ha hb
    by_cases hname : (keyString env.settingSection "current_theme").length = 0
    · have hta : InitSetting env sa =
          .ok { sa with injectCSS := false, replaceColors := false, overwriteAssets := false } [] := by
        simp [InitSetting, hname]
      have htb : InitSetting env sb =
          .ok { sb with injectCSS := false, replaceColors := false, overwriteAssets := false } [] := by
        simp [InitSetting, hname]
      rw [hta] at ha
      rw [htb] at hb
      cases ha
      cases hb
      exact ⟨rfl, rfl, rfl⟩
    · obtain ⟨tfa, htfa, _, hra, hia, hoa⟩ :=
        initSetting_ok_flags env sa sta ea hname ha
      obtain ⟨tfb, htfb, _, hrb, hib, hob⟩ :=
        initSetting_ok_flags env sb stb eb hname hb
      have htf : tfa = tfb := by
        rw [htfa] at htfb
        exact Option.some.inj htfb
      subst htf
      rw [hra, hrb, hia, hib, hoa, hob]
      exact ⟨rfl, rfl, rfl⟩

/-- C8 witness for the amended theorem: both parts applied at a concrete
store, filesystem and pair of prior states. -/
theorem initSetting_idempotent_and_flags_memoryless_witness :
    InitSetting (Env.mk [("current_theme", "")] [] (FS.mk [] []) "T" "E" [] true)
        initialState = .ok initialState [] ∧
    initialState.replaceColors =
        (SettingState.mk false false false "Stale" none none).replaceColors ∧
      initialState.injectCSS =
        (SettingState.mk false false false "Stale" none none).injectCSS ∧
      initialState.overwriteAssets =
        (SettingState.mk false false false "Stale" none none).overwriteAssets :=
  ⟨initSetting_idempotent_and_flags_memoryless.1
      (Env.mk [("current_theme", "")] [] (FS.mk [] []) "T" "E" [] true)
      initialState initialState [] (by decide),
    initSetting_idempotent_and_flags_memoryless.2
      (Env.mk [("current_theme", "")] [] (FS.mk [] []) "T" "E" [] true)
      initialState (SettingState.mk true true true "Stale" none none)
      initialState (SettingState.mk false false false "Stale" none none)
      [] [] (by decide) (by decide)⟩

/-- C10 witness. -/
theorem initSetting_blank_theme_frame_witness :
    (SettingState.mk false false false "Dribbblish" (some []) none).replaceColors = false ∧
      (SettingState.mk false false false "Dribbblish" (some []) none).injectCSS = false ∧
      (SettingState.mk false false false "Dribbblish" (some []) none).overwriteAssets = false ∧
      (SettingState.mk false false false "Dribbblish" (some []) none).themeFolder =
        (SettingState.mk true true true "Dribbblish" (some []) none).themeFolder ∧
      (SettingState.mk false false false "Dribbblish" (some []) none).colorCfg =
        (SettingState.mk true true true "Dribbblish" (some []) none).colorCfg ∧
      (SettingState.mk false false false "Dribbblish" (some []) none).colorSection =
        (SettingState.mk true true true "Dribbblish" (some []) none).colorSection ∧
      ([] : List String) = [] ∧
      ((Env.mk [("current_theme", "")] [] ⟨[], []⟩ "T" "E" [] true).moddable = true →
        Watch (Env.mk [("current_theme", "")] [] ⟨[], []⟩ "T" "E" [] true) = .exitBlankTheme) :=
  initSetting_blank_theme_frame
    (Env.mk [("current_theme", "")] [] ⟨[], []⟩ "T" "E" [] true)
    (SettingState.mk true true true "Dribbblish" (some []) none)
    (SettingState.mk false false false "Dribbblish" (some []) none)
    [] (by decide) (by decide)

/-- Helper: the extension-resolution fold accumulates exactly the found
paths and one warning per unresolved name, in order. -/
theorem foldl_ext_step (env : Env) (names : List String) (acc : List String × List String) :
    names.foldl
      (fun (acc : List String × List String) (v : String) =>
        match getExtensionPath env v with
        | none => (acc.1, acc.2 ++ ["Extension \"" ++ v ++ "\" not found."])
        | some extPath => (acc.1 ++ [extPath], acc.2))
      acc =
    (acc.1 ++ names.filterMap (getExtensionPath env),
     acc.2 ++ (names.filter (fun v => (getExtensionPath env v).isNone)).map
       (fun v => "Extension \"" ++ v ++ "\" not found.")) := by
  induction names generalizing acc with
  | nil => simp
  | cons v ns ih =>
    cases hf : getExtensionPath env v with
    | none =>
      simp only [List.foldl_cons, hf, List.filterMap_cons, List.filter_cons, ih,
        Option.isNone_none, if_pos, List.map_cons, List.append_assoc,
        List.cons_append, List.nil_append, if_true]
    | some p =>
      simp only [List.foldl_cons, hf, List.filterMap_cons, List.filter_cons, ih,
        Option.isNone_some, List.map_cons, List.append_assoc,
        List.cons_append, List.nil_append, Bool.false_eq_true, if_false]

/-- C5: extension watching resolves the configured names one by one, warns
(and continues) per unresolved name, exits fatally exactly when no name
resolved, and otherwise watches exactly the found subset in order. -/
theorem watchExtensions_characterization (env : Env) (hmod : env.moddable = true) :
    WatchExtensions env =
      (if ((keyStrings env.featureSection "extensions" "|").filterMap
            (getExtensionPath env)).length = 0 then
        .exitNoExtension
      else
        .watching
          ((keyStrings env.featureSection "extensions" "|").filterMap (getExtensionPath env))
          (((keyStrings env.featureSection "extensions" "|").filter
              (fun v => (getExtensionPath env v).isNone)).map
            (fun v => "Extension \"" ++ v ++ "\" not found."))) := by
  simp only [WatchExtensions, hmod, Bool.not_true, Bool.false_eq_true, if_false,
    foldl_ext_step, List.nil_append]

/-- C5 witness: two configured names, one resolvable — the fatal exit is not
taken and only the found path is watched, with one warning. -/
theorem watchExtensions_characterization_witness :
    WatchExtensions
        (Env.mk [] [("extensions", "a.js|b.js")] (FS.mk [] []) "T" "E"
          [("a.js", "EXT/a.js")] true) =
      (if ((keyStrings [("extensions", "a.js|b.js")] "extensions" "|").filterMap
            (getExtensionPath
              (Env.mk [] [("extensions", "a.js|b.js")] (FS.mk [] []) "T" "E"
                [("a.js", "EXT/a.js")] true))).length = 0 then
        .exitNoExtension
      else
        .watching
          ((keyStrings [("extensions", "a.js|b.js")] "extensions" "|").filterMap
            (getExtensionPath
              (Env.mk [] [("extensions", "a.js|b.js")] (FS.mk [] []) "T" "E"
                [("a.js", "EXT/a.js")] true)))
          (((keyStrings [("extensions", "a.js|b.js")] "extensions" "|").filter
              (fun v => (getExtensionPath
                (Env.mk [] [("extensions", "a.js|b.js")] (FS.mk [] []) "T" "E"
                  [("a.js", "EXT/a.js")] true) v).isNone)).map
            (fun v => "Extension \"" ++ v ++ "\" not found."))) :=
  watchExtensions_characterization
    (Env.mk [] [("extensions", "a.js|b.js")] (FS.mk [] []) "T" "E"
      [("a.js", "EXT/a.js")] true) (by decide)

/-- C6: a failed reload attempt neither terminates the watch loop nor the
process: it only prints failure messages, and the reload callback on the
next error-free change event performs a fresh reload attempt, after which
the loop continues exactly as if started on the remaining events. -/
theorem reload_failure_nonfatal_and_retried
    (e1 e2 : ChangeEvent) (rest : List ChangeEvent)
    (h1e : e1.hasError = false) (h1r : e1.reloadOk = false)
    (h2e : e2.hasError = false) :
    runWatchLoop (e1 :: e2 :: rest) =
      (autoReloadFunc false ++ (autoReloadFunc e2.reloadOk ++ (runWatchLoop rest).1),
        (runWatchLoop rest).2) ∧
      autoReloadFunc false =
        ["Could not Reload Spotify",
         "Close Spotify and run \"spicetify watch -e -l\" again."] := by
  constructor
  · simp [runWatchLoop, h1e, h1r, h2e]
  · rfl

/-- C6 witness. -/
theorem reload_failure_nonfatal_and_retried_witness :
    runWatchLoop
        (ChangeEvent.mk false false :: ChangeEvent.mk false true :: []) =
      (autoReloadFunc false ++ (autoReloadFunc (ChangeEvent.mk false true).reloadOk ++
          (runWatchLoop []).1),
        (runWatchLoop []).2) ∧
      autoReloadFunc false =
        ["Could not Reload Spotify",
         "Close Spotify and run \"spicetify watch -e -l\" again."] :=
  reload_failure_nonfatal_and_retried
    (ChangeEvent.mk false false) (ChangeEvent.mk false true) []
    (by decide) (by decide) (by decide)

/-- Helper: after the idempotent ensure-create, the target path exists. -/
theorem statOk_checkExistAndCreate (fs : FS) (p : String) :
    statOk (checkExistAndCreate fs p) p = true := by
  unfold checkExistAndCreate
  split
  next hx => exact hx
  next hx => simp [statOk]

/-- C7: a set, non-empty `SPICETIFY_CONFIG` override is returned verbatim
(no platform-default derivation), and the returned directory exists when
the resolver returns. -/
theorem getSpicetifyFolder_env_override
    (env : OSEnv) (fs : FS) (v : String)
    (hv : lookupEnv env "SPICETIFY_CONFIG" = some v)
    (hlen : 0 < v.length) :
    (getSpicetifyFolder env fs).1 = v ∧
      statOk (getSpicetifyFolder env fs).2 v = true := by
  have hres : getSpicetifyFolder env fs = (v, checkExistAndCreate fs v) := by
    simp [getSpicetifyFolder, hv, hlen]
  rw [hres]
  exact ⟨rfl, statOk_checkExistAndCreate fs v⟩

/-- C7 witness: override `/cfg` on a platform whose default would be
HOME-derived. -/
theorem getSpicetifyFolder_env_override_witness :
    (getSpicetifyFolder
        (OSEnv.mk [("SPICETIFY_CONFIG", "/cfg"), ("HOME", "/home/u")] "linux")
        (FS.mk [] [])).1 = "/cfg" ∧
      statOk
        (getSpicetifyFolder
          (OSEnv.mk [("SPICETIFY_CONFIG", "/cfg"), ("HOME", "/home/u")] "linux")
          (FS.mk [] [])).2 "/cfg" = true :=
  getSpicetifyFolder_env_override
    (OSEnv.mk [("SPICETIFY_CONFIG", "/cfg"), ("HOME", "/home/u")] "linux")
    (FS.mk [] []) "/cfg" (by decide) (by decide)
